import Mathlib

/-!
Verification of `src/simple-server.py` (Travel-Planner-Explorer development
server) against its specification.

The script has two parts:

* `MyHTTPRequestHandler.end_headers` (lines 15–19): an override that buffers the
  three cache-defeating headers and then flushes via the base handler.
* `main` (lines 21–45): chdir to the script's directory, print a banner, bind a
  `TCPServer` on port 8000, print more banner lines, best-effort browser launch
  inside a bare `try`/`except: pass`, then `serve_forever` inside a
  `try`/`except KeyboardInterrupt`.

The handler side is embedded as pure functions on header lists; the process
side as a function from an environment (script directory, whether the bind
fails, whether the browser launch raises, and when — if ever — a
KeyboardInterrupt is delivered) to the run's trace of observable events and
its final result.  One point of Python semantics matters below: a bare
`except:` clause catches every exception, `KeyboardInterrupt` included.
-/

namespace SimpleServer

/-- `PORT = 8000` (src/simple-server.py line 13). -/
def PORT : Nat := 8000

/-- One HTTP header line: a header name and its wire-level value. -/
structure Header where
  hname : String
  hvalue : String
deriving DecidableEq, Repr

/-- The three cache-defeating headers buffered by
`MyHTTPRequestHandler.end_headers`, in the order of its three `send_header`
calls (src/simple-server.py lines 16–18). -/
def cacheHeaders : List Header :=
  [Header.mk "Cache-Control" "no-cache, no-store, must-revalidate",
   Header.mk "Pragma" "no-cache",
   Header.mk "Expires" "0"]

/-- `MyHTTPRequestHandler.end_headers` (src/simple-server.py lines 15–19):
given the header buffer the base handler has already filled for the current
response, append the three cache headers and flush; the result is the
wire-order header list of the outgoing response. -/
def end_headers (buffered : List Header) : List Header :=
  buffered ++ cacheHeaders

/-- The served directory, as a finite map from request path to the byte
contents of the file there (`none` when no file exists at that path). -/
def FileSystem : Type := String → Option (List Nat)

/-- An HTTP response: status code, wire-order header list, body bytes. -/
structure Response where
  status : Nat
  headers : List Header
  body : List Nat
deriving DecidableEq, Repr

/-- Modelled from the spec: the base file-serving facility (Python's
`SimpleHTTPRequestHandler`, not part of this repository) maps a GET request
path to a file under the served directory; an existing file yields status 200
with the file's byte contents, any other path yields the facility's built-in
not-found response with status 404 and some error body.  `baseHdrs` stands for
whatever headers the base handler buffers for the response before they are
flushed through the overridden `end_headers`. -/
def handleGet (fs : FileSystem) (baseHdrs : List Header) (notFoundBody : List Nat)
    (path : String) : Response :=
  match fs path with
  | some bytes => Response.mk 200 (end_headers baseHdrs) bytes
  | none => Response.mk 404 (end_headers baseHdrs) notFoundBody

/-- The point of `main` at which a KeyboardInterrupt is delivered
(src/simple-server.py lines 21–45). -/
inductive Phase
  /-- during `os.chdir(...)` (line 23) -/
  | chdirP
  /-- during the two `print` calls before the bind (lines 25–26) -/
  | banner1P
  /-- during the `TCPServer` bind (line 28) -/
  | bindP
  /-- during the five `print` calls inside the `with` block (lines 29–33) -/
  | banner2P
  /-- during `webbrowser.open(...)`, inside the bare `try`/`except` (lines 36–39) -/
  | browserP
  /-- during `httpd.serve_forever()` (line 42) -/
  | serveP
deriving DecidableEq, Repr

/-- Environmental nondeterminism for one run of `main`: the directory holding
the script file, the directory the process was invoked from, whether binding
port 8000 fails (port already taken), whether the browser launch raises, and
when (if ever) a KeyboardInterrupt is delivered. -/
structure Env where
  scriptDir : String
  invokedFrom : String
  bindFails : Bool
  browserFails : Bool
  interruptAt : Option Phase
deriving DecidableEq, Repr

/-- Observable events of a run of `main`. -/
inductive Event
  /-- the working directory was changed to `dir` -/
  | chdir (dir : String)
  /-- a line was printed to the console -/
  | printed (s : String)
  /-- the listening socket was bound to `host`:`port` -/
  | bound (host : String) (port : Nat)
  /-- the default browser was asked to open `url` -/
  | browserOpened (url : String)
  /-- the serving loop was entered -/
  | serving
  /-- the listening socket was closed (the `with` block exited) -/
  | closed
deriving DecidableEq, Repr

/-- How a run of `main` ends. -/
inductive Result
  /-- `serve_forever` loops with no interrupt: the process serves indefinitely -/
  | servesForever
  /-- `main` returns normally (graceful shutdown) -/
  | normalExit
  /-- the bind failure propagates out of `main` uncaught -/
  | uncaughtOSError
  /-- a KeyboardInterrupt outside any handler propagates out of `main` uncaught -/
  | uncaughtKeyboardInterrupt
deriving DecidableEq, Repr

/-- The fixed URL handed to the browser (src/simple-server.py line 38). -/
def localUrl : String := "http://localhost:" ++ toString PORT ++ "/index.html"

/-- The function `main` of src/simple-server.py (lines 21–45): the trace of
observable events of one run together with how the run ends, given the
environment.  The bare `except:` around `webbrowser.open` swallows every
exception, a KeyboardInterrupt delivered there included; only
`serve_forever` sits inside an `except KeyboardInterrupt` handler. -/
def runMain (env : Env) : List Event × Result :=
  -- os.chdir(os.path.dirname(os.path.abspath(__file__)))
  if env.interruptAt = some Phase.chdirP then ([], Result.uncaughtKeyboardInterrupt) else
  let t := [Event.chdir env.scriptDir]
  -- the two prints before the bind
  if env.interruptAt = some Phase.banner1P then (t, Result.uncaughtKeyboardInterrupt) else
  let t := t ++ [Event.printed ("Starting HTTP server on port " ++ toString PORT),
                 Event.printed ("Serving files from: " ++ env.scriptDir)]
  -- with socketserver.TCPServer(("", PORT), MyHTTPRequestHandler) as httpd:
  if env.interruptAt = some Phase.bindP then (t, Result.uncaughtKeyboardInterrupt) else
  if env.bindFails then (t, Result.uncaughtOSError) else
  let t := t ++ [Event.bound "" PORT]
  -- the five prints inside the with block; an uncaught interrupt here still
  -- runs the with block's exit (socket close) before propagating
  if env.interruptAt = some Phase.banner2P then
    (t ++ [Event.closed], Result.uncaughtKeyboardInterrupt) else
  let t := t ++
    [Event.printed ("Server running at http://localhost:" ++ toString PORT ++ "/"),
     Event.printed ("Open http://localhost:" ++ toString PORT ++
       "/index.html to view the application"),
     Event.printed ("Open http://localhost:" ++ toString PORT ++
       "/test.html for simple test"),
     Event.printed ("Open http://localhost:" ++ toString PORT ++
       "/debug.html for debugging"),
     Event.printed "Press Ctrl+C to stop the server"]
  -- try: webbrowser.open(...) except: pass — any exception is swallowed
  let t := if env.interruptAt = some Phase.browserP ∨ env.browserFails then t
           else t ++ [Event.browserOpened localUrl]
  -- try: httpd.serve_forever() except KeyboardInterrupt: print("\nServer stopped.")
  if env.interruptAt = some Phase.serveP then
    (t ++ [Event.serving, Event.printed "\nServer stopped.", Event.closed],
     Result.normalExit)
  else
    (t ++ [Event.serving], Result.servesForever)

/-!  ## Theorems for the claims  -/

/-- C1: every outgoing response's header list is produced by the overridden
`end_headers`, which appends exactly the three headers
`Cache-Control: no-cache, no-store, must-revalidate`, `Pragma: no-cache` and
`Expires: 0`, in that order, after whatever headers the base handler had
already buffered for the response. -/
theorem c1_cache_headers_appended (fs : FileSystem) (buffered : List Header)
    (notFoundBody : List Nat) (path : String) :
    (handleGet fs buffered notFoundBody path).headers =
      buffered ++ [Header.mk "Cache-Control" "no-cache, no-store, must-revalidate",
                   Header.mk "Pragma" "no-cache",
                   Header.mk "Expires" "0"] ∧
    end_headers buffered =
      buffered ++ [Header.mk "Cache-Control" "no-cache, no-store, must-revalidate",
                   Header.mk "Pragma" "no-cache",
                   Header.mk "Expires" "0"] := by
  refine ⟨?_, rfl⟩
  unfold handleGet
  cases fs path <;> rfl

/-- C2: a GET request to a path with no file under the served directory gets
the base facility's not-found status 404, and the response still carries all
three cache-defeating headers. -/
theorem c2_missing_file_404 (fs : FileSystem) (buffered : List Header)
    (notFoundBody : List Nat) (path : String) (h : fs path = none) :
    (handleGet fs buffered notFoundBody path).status = 404 ∧
    ∀ hdr ∈ cacheHeaders, hdr ∈ (handleGet fs buffered notFoundBody path).headers := by
  constructor
  · simp [handleGet, h]
  · intro hdr hh
    simp [handleGet, h, end_headers, hh]

/-- Witness for C2 at a concrete empty directory and the path `/missing.html`. -/
theorem c2_missing_file_404_witness :
    (handleGet (fun _ => none) [] [60] "/missing.html").status = 404 ∧
    ∀ hdr ∈ cacheHeaders, hdr ∈ (handleGet (fun _ => none) [] [60] "/missing.html").headers :=
  c2_missing_file_404 (fun _ => none) [] [60] "/missing.html" rfl

/-- C3: a GET request to an existing file under the served directory gets
status 200, a body equal to the file's byte contents, and a response that
carries all three cache-defeating headers. -/
theorem c3_existing_file_200 (fs : FileSystem) (buffered : List Header)
    (notFoundBody : List Nat) (path : String) (bytes : List Nat)
    (h : fs path = some bytes) :
    (handleGet fs buffered notFoundBody path).status = 200 ∧
    (handleGet fs buffered notFoundBody path).body = bytes ∧
    ∀ hdr ∈ cacheHeaders, hdr ∈ (handleGet fs buffered notFoundBody path).headers := by
  refine ⟨?_, ?_, ?_⟩
  · simp [handleGet, h]
  · simp [handleGet, h]
  · intro hdr hh
    simp [handleGet, h, end_headers, hh]

/-- Witness for C3: a directory holding `/index.html` with bytes `[104, 105]`. -/
theorem c3_existing_file_200_witness :
    (handleGet (fun p => if p = "/index.html" then some [104, 105] else none)
        [] [60] "/index.html").status = 200 ∧
    (handleGet (fun p => if p = "/index.html" then some [104, 105] else none)
        [] [60] "/index.html").body = [104, 105] ∧
    ∀ hdr ∈ cacheHeaders,
      hdr ∈ (handleGet (fun p => if p = "/index.html" then some [104, 105] else none)
        [] [60] "/index.html").headers :=
  c3_existing_file_200 (fun p => if p = "/index.html" then some [104, 105] else none)
    [] [60] "/index.html" [104, 105] rfl

/-- Whether an event is the browser-launch event (used to compare runs modulo
the browser launch). -/
def isBrowserEvent : Event → Bool
  | Event.browserOpened _ => true
  | _ => false

/-- C4: when port 8000 is already bound, startup fails immediately and fatally
with the uncaught bind exception: the socket is never bound, the serving loop
is never entered (no retry, no fallback, no listening state). -/
theorem c4_bind_failure_fatal (env : Env) (hb : env.bindFails = true)
    (hi : env.interruptAt = none) :
    (runMain env).2 = Result.uncaughtOSError ∧
    (∀ hst prt, Event.bound hst prt ∉ (runMain env).1) ∧
    Event.serving ∉ (runMain env).1 := by
  obtain ⟨sd, inv, bf, brf, ia⟩ := env
  simp only at hb hi
  subst hb hi
  simp [runMain]

/-- Witness for C4 at a concrete environment whose bind fails. -/
theorem c4_bind_failure_fatal_witness :
    (runMain (Env.mk "/srv" "/" true false none)).2 = Result.uncaughtOSError ∧
    (∀ hst prt, Event.bound hst prt ∉ (runMain (Env.mk "/srv" "/" true false none)).1) ∧
    Event.serving ∉ (runMain (Env.mk "/srv" "/" true false none)).1 :=
  c4_bind_failure_fatal (Env.mk "/srv" "/" true false none) rfl rfl

/-- C5: a KeyboardInterrupt delivered while `serve_forever` runs is caught,
the final shutdown message is printed, and `main` returns normally — no
unhandled fault. -/
theorem c5_interrupt_graceful (env : Env) (hb : env.bindFails = false)
    (hi : env.interruptAt = some Phase.serveP) :
    (runMain env).2 = Result.normalExit ∧
    Event.printed "\nServer stopped." ∈ (runMain env).1 := by
  obtain ⟨sd, inv, bf, brf, ia⟩ := env
  simp only at hb hi
  subst hb hi
  cases brf <;> simp [runMain]

/-- Witness for C5 at a concrete environment interrupted while serving. -/
theorem c5_interrupt_graceful_witness :
    (runMain (Env.mk "/srv" "/" false false (some Phase.serveP))).2 =
      Result.normalExit ∧
    Event.printed "\nServer stopped." ∈
      (runMain (Env.mk "/srv" "/" false false (some Phase.serveP))).1 :=
  c5_interrupt_graceful (Env.mk "/srv" "/" false false (some Phase.serveP)) rfl rfl

/-- C6: a failing browser launch is fully suppressed: compared with the same
environment where the launch succeeds, the run ends the same way and its trace
is identical except for the browser-launch event itself — nothing extra is
printed, no error propagates, startup and serving are unaffected. -/
theorem c6_browser_failure_suppressed (env : Env) :
    (runMain {env with browserFails := true}).2 =
      (runMain {env with browserFails := false}).2 ∧
    ((runMain {env with browserFails := true}).1.filter
        fun e => !(isBrowserEvent e)) =
      ((runMain {env with browserFails := false}).1.filter
        fun e => !(isBrowserEvent e)) := by
  obtain ⟨sd, inv, bf, brf, ia⟩ := env
  rcases ia with _ | ph
  · cases bf <;> simp [runMain, isBrowserEvent]
  · cases ph <;> cases bf <;> simp [runMain, isBrowserEvent]

/-- C7: in every run that reaches the serving loop, the very first observable
action is the change of working directory to the script's own directory, and
the whole run is independent of the directory the process was invoked from. -/
theorem c7_chdir_before_serving (env : Env) (d1 d2 : String)
    (h : Event.serving ∈ (runMain env).1) :
    (runMain env).1.head? = some (Event.chdir env.scriptDir) ∧
    runMain {env with invokedFrom := d1} = runMain {env with invokedFrom := d2} := by
  obtain ⟨sd, inv, bf, brf, ia⟩ := env
  refine ⟨?_, rfl⟩
  rcases ia with _ | ph
  · cases bf <;> cases brf <;> simp_all [runMain]
  · cases ph <;> cases bf <;> cases brf <;> simp_all [runMain]

/-- Witness for C7 at a concrete environment that reaches the serving loop. -/
theorem c7_chdir_before_serving_witness :
    (runMain (Env.mk "/srv" "/" false false none)).1.head? =
      some (Event.chdir "/srv") ∧
    runMain {Env.mk "/srv" "/" false false none with invokedFrom := "/a"} =
      runMain {Env.mk "/srv" "/" false false none with invokedFrom := "/b"} :=
  c7_chdir_before_serving (Env.mk "/srv" "/" false false none) "/a" "/b"
    (by simp [runMain])

/-- C8: the listening socket is only ever bound to host `""` (all interfaces)
and port 8000; no environment (no flag, variable or configuration is even
consulted) can produce a bind to any other address or port. -/
theorem c8_fixed_port (env : Env) (hst : String) (prt : Nat)
    (h : Event.bound hst prt ∈ (runMain env).1) :
    PORT = 8000 ∧ hst = "" ∧ prt = 8000 := by
  refine ⟨rfl, ?_⟩
  obtain ⟨sd, inv, bf, brf, ia⟩ := env
  rcases ia with _ | ph
  · cases bf <;> cases brf <;> simp_all [runMain, PORT]
  · cases ph <;> cases bf <;> cases brf <;> simp_all [runMain, PORT]

/-- Witness for C8 at a concrete environment whose run binds the socket. -/
theorem c8_fixed_port_witness :
    PORT = 8000 ∧ ("" : String) = "" ∧ (8000 : Nat) = 8000 :=
  c8_fixed_port (Env.mk "/srv" "/" false false none) "" 8000
    (by simp [runMain, PORT])

/-- C9 as stated is false: a KeyboardInterrupt delivered during the
browser-launch attempt is swallowed by the bare `except:` clause, so the
process does not terminate with an unhandled exception — it proceeds into the
serving loop. -/
theorem c9_counterexample :
    (runMain (Env.mk "/srv" "/" false false (some Phase.browserP))).2 ≠
      Result.uncaughtKeyboardInterrupt ∧
    (runMain (Env.mk "/srv" "/" false false (some Phase.browserP))).2 =
      Result.servesForever ∧
    Event.serving ∈ (runMain (Env.mk "/srv" "/" false false (some Phase.browserP))).1 := by
  refine ⟨by decide, rfl, by simp [runMain]⟩

/-- C9 amended: an interrupt delivered before the browser-launch try block —
during the working-directory change, the banner printing, or the bind — is
uncaught and fatal before the serving loop is ever entered; but an interrupt
delivered during the browser-launch attempt is swallowed by the bare
`except:` clause and the process continues into the serving loop. -/
theorem c9_amended_interrupt_coverage (env : Env) (hb : env.bindFails = false) :
    ((env.interruptAt = some Phase.chdirP ∨ env.interruptAt = some Phase.banner1P ∨
      env.interruptAt = some Phase.bindP ∨ env.interruptAt = some Phase.banner2P) →
      (runMain env).2 = Result.uncaughtKeyboardInterrupt ∧
      Event.serving ∉ (runMain env).1) ∧
    (env.interruptAt = some Phase.browserP →
      (runMain env).2 = Result.servesForever ∧
      Event.serving ∈ (runMain env).1) := by
  obtain ⟨sd, inv, bf, brf, ia⟩ := env
  simp only at hb
  subst hb
  rcases ia with _ | ph
  · simp [runMain]
  · cases ph <;> cases brf <;> simp [runMain]

/-- Witness for the amended C9 at a concrete environment interrupted during
the banner printing. -/
theorem c9_amended_interrupt_coverage_witness :
    (((Env.mk "/srv" "/" false false (some Phase.banner1P)).interruptAt =
        some Phase.chdirP ∨
      (Env.mk "/srv" "/" false false (some Phase.banner1P)).interruptAt =
        some Phase.banner1P ∨
      (Env.mk "/srv" "/" false false (some Phase.banner1P)).interruptAt =
        some Phase.bindP ∨
      (Env.mk "/srv" "/" false false (some Phase.banner1P)).interruptAt =
        some Phase.banner2P) →
      (runMain (Env.mk "/srv" "/" false false (some Phase.banner1P))).2 =
        Result.uncaughtKeyboardInterrupt ∧
      Event.serving ∉
        (runMain (Env.mk "/srv" "/" false false (some Phase.banner1P))).1) ∧
    ((Env.mk "/srv" "/" false false (some Phase.banner1P)).interruptAt =
        some Phase.browserP →
      (runMain (Env.mk "/srv" "/" false false (some Phase.banner1P))).2 =
        Result.servesForever ∧
      Event.serving ∈
        (runMain (Env.mk "/srv" "/" false false (some Phase.banner1P))).1) :=
  c9_amended_interrupt_coverage (Env.mk "/srv" "/" false false (some Phase.banner1P)) rfl

/-- C10: the browser launch is attempted only after the socket has been
successfully bound: any run whose trace holds a browser-launch event has a
successful bind, and the bind event precedes the browser-launch event in the
trace; contrapositively, a run whose bind fails never attempts a browser
launch. -/
theorem c10_browser_only_after_bind (env : Env) (u : String)
    (h : Event.browserOpened u ∈ (runMain env).1) :
    env.bindFails = false ∧
    ∃ t1 t2 t3, (runMain env).1 =
      t1 ++ Event.bound "" PORT :: (t2 ++ Event.browserOpened u :: t3) := by
  obtain ⟨sd, inv, bf, brf, ia⟩ := env
  have hbf : bf = false := by
    cases bf
    · rfl
    · exfalso
      rcases ia with _ | ph
      · simp_all [runMain]
      · cases ph <;> simp_all [runMain]
  subst hbf
  have hbrf : brf = false := by
    cases brf
    · rfl
    · exfalso
      rcases ia with _ | ph
      · simp_all [runMain]
      · cases ph <;> simp_all [runMain]
  subst hbrf
  have hu : u = localUrl := by
    rcases ia with _ | ph
    · simp_all [runMain, localUrl]
    · cases ph <;> simp_all [runMain, localUrl]
  subst hu
  refine ⟨rfl, ?_⟩
  rcases ia with _ | ph
  · exact ⟨[Event.chdir sd,
            Event.printed ("Starting HTTP server on port " ++ toString PORT),
            Event.printed ("Serving files from: " ++ sd)],
           [Event.printed ("Server running at http://localhost:" ++
              toString PORT ++ "/"),
            Event.printed ("Open http://localhost:" ++ toString PORT ++
              "/index.html to view the application"),
            Event.printed ("Open http://localhost:" ++ toString PORT ++
              "/test.html for simple test"),
            Event.printed ("Open http://localhost:" ++ toString PORT ++
              "/debug.html for debugging"),
            Event.printed "Press Ctrl+C to stop the server"],
           [Event.serving], rfl⟩
  · cases ph
    case chdirP => simp_all [runMain]
    case banner1P => simp_all [runMain]
    case bindP => simp_all [runMain]
    case banner2P => simp_all [runMain]
    case browserP => simp_all [runMain]
    case serveP =>
      exact ⟨[Event.chdir sd,
              Event.printed ("Starting HTTP server on port " ++ toString PORT),
              Event.printed ("Serving files from: " ++ sd)],
             [Event.printed ("Server running at http://localhost:" ++
                toString PORT ++ "/"),
              Event.printed ("Open http://localhost:" ++ toString PORT ++
                "/index.html to view the application"),
              Event.printed ("Open http://localhost:" ++ toString PORT ++
                "/test.html for simple test"),
              Event.printed ("Open http://localhost:" ++ toString PORT ++
                "/debug.html for debugging"),
              Event.printed "Press Ctrl+C to stop the server"],
             [Event.serving, Event.printed "\nServer stopped.", Event.closed],
             rfl⟩

/-- Witness for C10 at a concrete environment whose run opens the browser. -/
theorem c10_browser_only_after_bind_witness :
    (Env.mk "/srv" "/" false false none).bindFails = false ∧
    ∃ t1 t2 t3, (runMain (Env.mk "/srv" "/" false false none)).1 =
      t1 ++ Event.bound "" PORT ::
        (t2 ++ Event.browserOpened localUrl :: t3) :=
  c10_browser_only_after_bind (Env.mk "/srv" "/" false false none) localUrl
    (by simp [runMain])

end SimpleServer
